import Mathlib

/-!
Verification of the robot rig synchronization core of the Simulator repository.

The definitions below are a shallow embedding of the Space class
(src/unnamed/part_000): the motor/servo controller, the swing-twist
pose-delta extractor, the per-frame telemetry update, the robot
repositioning routines, the scene-load coalescing state machine, the
collider-manifest rig builder, and the state reconciler.

Real-number values model the JavaScript floating point numbers of the
source; quaternions and vectors model the babylonjs Quaternion and
Vector3 values, with the babylonjs operations (Hamilton product,
Inverse as conjugate, normalize as division by the length) spelled out
on components exactly as the library computes them.
-/

namespace Sim

/-- Babylon.Vector3: a 3-component real vector. -/
structure Vec3 where
  x : ℝ
  y : ℝ
  z : ℝ


/-- Babylon.Quaternion: components stored as (x, y, z, w), with w the scalar part. -/
structure Quat where
  x : ℝ
  y : ℝ
  z : ℝ
  w : ℝ


namespace Vec3

/-- Babylon.Vector3.Dot. -/
def dot (a b : Vec3) : ℝ := a.x * b.x + a.y * b.y + a.z * b.z

/-- Babylon.Vector3.scale. -/
def scale (a : Vec3) (s : ℝ) : Vec3 := ⟨a.x * s, a.y * s, a.z * s⟩

/-- Babylon.Vector3.Zero. -/
def zero : Vec3 := ⟨0, 0, 0⟩

/-- Componentwise vector addition. -/
def add (a b : Vec3) : Vec3 := ⟨a.x + b.x, a.y + b.y, a.z + b.z⟩

/-- Componentwise vector subtraction. -/
def sub (a b : Vec3) : Vec3 := ⟨a.x - b.x, a.y - b.y, a.z - b.z⟩

/-- Squared Euclidean norm of a vector. -/
def normSq (a : Vec3) : ℝ := a.x ^ 2 + a.y ^ 2 + a.z ^ 2

@[ext] theorem vec3_ext {a b : Vec3} (hx : a.x = b.x) (hy : a.y = b.y) (hz : a.z = b.z) :
    a = b := by
  cases a; cases b; simp_all

end Vec3

namespace Quat

/-- Babylon.Quaternion.multiply, the Hamilton product this * other, written on
components exactly as multiplyToRef computes them. -/
def mul (l r : Quat) : Quat :=
  { x := l.x * r.w + l.y * r.z - l.z * r.y + l.w * r.x
    y := -l.x * r.z + l.y * r.w + l.z * r.x + l.w * r.y
    z := l.x * r.y - l.y * r.x + l.z * r.w + l.w * r.z
    w := -l.x * r.x - l.y * r.y - l.z * r.z + l.w * r.w }

instance : Mul Quat := ⟨Quat.mul⟩

theorem mul_def (l r : Quat) : l * r = Quat.mul l r := rfl

/-- Babylon.Quaternion.Inverse: returns the conjugate (-x, -y, -z, w). -/
def inverse (q : Quat) : Quat := ⟨-q.x, -q.y, -q.z, q.w⟩

/-- Sum of the squares of the four components. -/
def normSq (q : Quat) : ℝ := q.x ^ 2 + q.y ^ 2 + q.z ^ 2 + q.w ^ 2

/-- Babylon.Quaternion.length: the Euclidean length of the four components. -/
noncomputable def length (q : Quat) : ℝ := Real.sqrt q.normSq

/-- Babylon.Quaternion.scaleInPlace: multiply all four components by a scalar. -/
def scaleQ (q : Quat) (s : ℝ) : Quat := ⟨q.x * s, q.y * s, q.z * s, q.w * s⟩

/-- Babylon.Quaternion.normalize: multiply by the reciprocal of the length.
Division by zero in Lean yields zero, mirroring that the source never reaches
this call with a zero-length argument (see the stability theorem). -/
noncomputable def normalize (q : Quat) : Quat := q.scaleQ (1 / q.length)

/-- The identity quaternion (0, 0, 0, 1), as built by new Babylon.Quaternion(). -/
def one : Quat := ⟨0, 0, 0, 1⟩

/-- Vector (imaginary) part of a quaternion. -/
def vec (q : Quat) : Vec3 := ⟨q.x, q.y, q.z⟩

/-- Embed a vector as a pure quaternion with zero scalar part. -/
def ofVec (v : Vec3) : Quat := ⟨v.x, v.y, v.z, 0⟩

@[ext] theorem quat_ext {a b : Quat} (hx : a.x = b.x) (hy : a.y = b.y) (hz : a.z = b.z)
    (hw : a.w = b.w) : a = b := by
  cases a; cases b; simp_all

end Quat

/-! Shared algebraic facts about the embedded babylonjs quaternion operations. -/

theorem Quat.normSq_mul (p q : Quat) : (p * q).normSq = p.normSq * q.normSq := by
  simp only [Quat.mul_def, Quat.mul, Quat.normSq]
  ring

theorem Quat.mul_inverse_self (q : Quat) : q * q.inverse = ⟨0, 0, 0, q.normSq⟩ := by
  simp only [Quat.mul_def, Quat.mul, Quat.inverse, Quat.normSq]
  ext <;> ring

/-- Conjugating a pure quaternion by any quaternion yields a pure quaternion. -/
theorem Quat.conjugation_pure_w (q : Quat) (v : Vec3) :
    (q * Quat.ofVec v * q.inverse).w = 0 := by
  simp only [Quat.mul_def, Quat.mul, Quat.inverse, Quat.ofVec]
  ring

/-- Norm of the vector part of a conjugated pure quaternion: the squared norm of
the vector part of q (0, v) q⁻¹ is normSq q ^ 2 times the squared norm of v. -/
theorem Quat.conjugation_pure_normSq (q : Quat) (v : Vec3) :
    (q * Quat.ofVec v * q.inverse).vec.normSq = q.normSq ^ 2 * v.normSq := by
  simp only [Quat.mul_def, Quat.mul, Quat.inverse, Quat.ofVec, Quat.vec, Quat.normSq,
    Vec3.normSq]
  ring

/-- Conjugation is linear: conjugating the quaternion (s·v, c) by q gives the
scalar part c·normSq q and the vector part s times the conjugate of v. -/
theorem Quat.conjugation_decomp (q : Quat) (v : Vec3) (s c : ℝ) :
    q * (⟨s * v.x, s * v.y, s * v.z, c⟩ : Quat) * q.inverse =
      ⟨s * (q * Quat.ofVec v * q.inverse).x,
       s * (q * Quat.ofVec v * q.inverse).y,
       s * (q * Quat.ofVec v * q.inverse).z,
       c * q.normSq⟩ := by
  simp only [Quat.mul_def, Quat.mul, Quat.inverse, Quat.ofVec, Quat.normSq]
  ext <;> ring

/-! The swing-twist pose-delta extractor (part_000 lines 799-834). -/

/-- The quaternion assembled from the projection of the rotation axis of q onto
the direction vector, before the normalize call inside getTwistForQuaternion. -/
def twistPreNormalize (q : Quat) (direction : Vec3) : Quat :=
  let rotationAxis : Vec3 := ⟨q.x, q.y, q.z⟩
  let dotProd : ℝ := Vec3.dot direction rotationAxis
  let projection : Vec3 := direction.scale dotProd
  ⟨projection.x, projection.y, projection.z, q.w⟩

/-- getTwistForQuaternion: swing-twist decomposition of q onto the (assumed
normalized) direction vector, flipping the sign when the projection is
anti-parallel to the axis. -/
noncomputable def getTwistForQuaternion (q : Quat) (direction : Vec3) : Quat :=
  let rotationAxis : Vec3 := ⟨q.x, q.y, q.z⟩
  let dotProd : ℝ := Vec3.dot direction rotationAxis
  let twist : Quat := (twistPreNormalize q direction).normalize
  if dotProd < 0 then twist.scaleQ (-1) else twist

/-- getDeltaRotationOnAxis: the signed rotation (in radians) about the given
axis between the start and end orientations, recovered as 2 * acos of the
scalar part of the twist component of the delta quaternion. -/
noncomputable def getDeltaRotationOnAxis (start finish : Quat) (axis : Vec3) : ℝ :=
  let axisQuaternion : Quat := ⟨axis.x, axis.y, axis.z, 0⟩
  let axisLocalQuaternion : Quat := start * axisQuaternion * start.inverse
  let axisLocalVector : Vec3 := ⟨axisLocalQuaternion.x, axisLocalQuaternion.y, axisLocalQuaternion.z⟩
  let delta : Quat := finish * start.inverse
  let twist : Quat := getTwistForQuaternion delta axisLocalVector
  2 * Real.arccos twist.w

/-- Wheel-rotation wrap applied in the after-render callback (lines 369-374):
a raw delta in (pi, 2 pi) is converted to the equivalent negative rotation. -/
noncomputable def wrapWheelRotation (r : ℝ) : ℝ :=
  if r > Real.pi then r - 2 * Real.pi else r

/-- Servo-rotation wrap applied inside setServoPositions (lines 845-847 and
866-868), using a non-strict comparison against pi. -/
noncomputable def wrapServoRotation (r : ℝ) : ℝ :=
  if r ≥ Real.pi then r - 2 * Real.pi else r

/-! The wheel drive motor controller, setDriveMotors (lines 782-797).
The commanded speeds and the setMotor arguments are exact rationals here
(the source computation is a clamp and one division, both exact). -/

/-- MAX_MOTOR_VELOCITY (line 92). -/
def MAX_MOTOR_VELOCITY : ℚ := 1500

/-- Clamp of a commanded speed, Math.max(-MAX, Math.min(speed, MAX)) (lines 786-787). -/
def clampSpeed (speed : ℚ) : ℚ :=
  max (-MAX_MOTOR_VELOCITY) (min speed MAX_MOTOR_VELOCITY)

/-- setDriveMotors: the pair of values passed to setMotor on the left and right
wheel joints. The right motor value is negated because the two wheel joints
were authored on mirrored axes (lines 782-790). -/
def setDriveMotors (leftSpeed rightSpeed : ℚ) : ℚ × ℚ :=
  (clampSpeed leftSpeed / 315, -(clampSpeed rightSpeed) / 315)

/-- Main axis of the right wheel hinge joint (line 595). -/
def rightWheelMainAxis : ℚ × ℚ × ℚ := (1, 0, 0)

/-- Main axis of the left wheel hinge joint (line 605). -/
def leftWheelMainAxis : ℚ × ℚ × ℚ := (-1, 0, 0)

/-- World-frame angular velocity command of a hinge joint: the motor value
drives rotation about the joint main axis, so the effective command is the
motor value times the axis vector. -/
def jointWorldCommand (motor : ℚ) (axis : ℚ × ℚ × ℚ) : ℚ × ℚ × ℚ :=
  (motor * axis.1, motor * axis.2.1, motor * axis.2.2)

/-! The servo controller, setServoPositions (lines 836-883). -/

/-- SERVO_DEFUALT_RADIANS (line 86, source spelling preserved):
half of the 175-degree servo range, in radians. -/
noncomputable def SERVO_DEFUALT_RADIANS : ℝ := 87.5 * Real.pi / 180

/-- SERVO_TICKS_PER_RADIAN (line 87). -/
noncomputable def SERVO_TICKS_PER_RADIAN : ℝ := 2048 / (2 * SERVO_DEFUALT_RADIANS)

/-- ARM_DEFAULT_ROTATION (line 89). -/
noncomputable def ARM_DEFAULT_ROTATION : ℝ := SERVO_DEFUALT_RADIANS

/-- CLAW_DEFAULT_ROTATION (line 90). -/
noncomputable def CLAW_DEFAULT_ROTATION : ℝ := 175 * Real.pi / 180

/-- Axis along which the arm joint rotation is measured (line 97). -/
def armRotationVector : Vec3 := ⟨1, 0, 0⟩

/-- Axis along which the claw joint rotation is measured (line 98). -/
def clawRotationVector : Vec3 := ⟨0, 0, -1⟩

/-- Axis along which the wheel joint rotations are measured (line 96). -/
def wheelRotationVector : Vec3 := ⟨0, -1, 0⟩

/-- Argument pair of a setMotor call on a motorized joint: the motor speed and
the optional maximum force. -/
structure ServoCmd where
  speed : ℝ
  maxForce : Option ℝ

theorem ServoCmd.ext_iff_mk {a b : ServoCmd} (hs : a.speed = b.speed)
    (hf : a.maxForce = b.maxForce) : a = b := by
  cases a; cases b; simp_all

/-- Current arm rotation as computed at the top of setServoPositions
(lines 843-847): the rotation of the arm relative to the body, measured
against the recorded default on the arm axis, wrapped at pi. -/
noncomputable def armRotationOf (armRotationDefault bodyCurrQuat armCurrQuat : Quat) : ℝ :=
  let armCurr := bodyCurrQuat.inverse * armCurrQuat
  wrapServoRotation (getDeltaRotationOnAxis armRotationDefault armCurr armRotationVector)

/-- Signed difference between the current arm rotation and the goal rotation
(line 850). -/
noncomputable def armDeltaOf (armRotationDefault bodyCurrQuat armCurrQuat : Quat)
    (goal0 : ℝ) : ℝ :=
  armRotationOf armRotationDefault bodyCurrQuat armCurrQuat + ARM_DEFAULT_ROTATION -
    goal0 / SERVO_TICKS_PER_RADIAN

/-- Drive direction for the arm (line 851). -/
noncomputable def armSignOf (armRotationDefault bodyCurrQuat armCurrQuat : Quat)
    (goal0 : ℝ) : ℝ :=
  if armDeltaOf armRotationDefault bodyCurrQuat armCurrQuat goal0 ≥ 0 then 1 else -1

/-- Normalized absolute arm delta (line 852). -/
noncomputable def armDeltaNormOf (armRotationDefault bodyCurrQuat armCurrQuat : Quat)
    (goal0 : ℝ) : ℝ :=
  |armDeltaOf armRotationDefault bodyCurrQuat armCurrQuat goal0 / (SERVO_DEFUALT_RADIANS * 2)|

/-- Current claw rotation (lines 864-868), relative to the arm. -/
noncomputable def clawRotationOf (clawRotationDefault armCurrQuat clawCurrQuat : Quat) : ℝ :=
  let clawCurr := armCurrQuat.inverse * clawCurrQuat
  wrapServoRotation (getDeltaRotationOnAxis clawRotationDefault clawCurr clawRotationVector)

/-- Signed difference between the current claw rotation and the goal rotation
(line 871). -/
noncomputable def clawDeltaOf (clawRotationDefault armCurrQuat clawCurrQuat : Quat)
    (goal3 : ℝ) : ℝ :=
  clawRotationOf clawRotationDefault armCurrQuat clawCurrQuat - CLAW_DEFAULT_ROTATION +
    goal3 / SERVO_TICKS_PER_RADIAN

/-- Drive direction for the claw (line 872): opposite convention to the arm. -/
noncomputable def clawSignOf (clawRotationDefault armCurrQuat clawCurrQuat : Quat)
    (goal3 : ℝ) : ℝ :=
  if clawDeltaOf clawRotationDefault armCurrQuat clawCurrQuat goal3 ≥ 0 then -1 else 1

/-- Normalized absolute claw delta (line 873). -/
noncomputable def clawDeltaNormOf (clawRotationDefault armCurrQuat clawCurrQuat : Quat)
    (goal3 : ℝ) : ℝ :=
  |clawDeltaOf clawRotationDefault armCurrQuat clawCurrQuat goal3 / (SERVO_DEFUALT_RADIANS * 2)|

/-- Three-tier proportional control shared by the arm and claw branches of
setServoPositions (lines 855-861 and 876-882): stop inside the dead band,
drive slowly close to the goal, drive fast otherwise. -/
noncomputable def servoTier (deltaNorm sign force : ℝ) : ServoCmd :=
  if deltaNorm < 0.01 then ⟨0, none⟩
  else if 0.001 ≤ deltaNorm ∧ deltaNorm ≤ 0.04 then ⟨sign * 1.2, some force⟩
  else ⟨sign * 6, some force⟩

/-- setServoPositions: given the recorded default rotations, the current root
quaternions of body, arm and claw, and the four goal tick values, produce the
setMotor commands issued to the arm joint (max force 8000) and the claw joint
(max force 2000). -/
noncomputable def setServoPositions (armRotationDefault clawRotationDefault
    bodyCurrQuat armCurrQuat clawCurrQuat : Quat) (goals : Fin 4 → ℝ) :
    ServoCmd × ServoCmd :=
  (servoTier (armDeltaNormOf armRotationDefault bodyCurrQuat armCurrQuat (goals 0))
      (armSignOf armRotationDefault bodyCurrQuat armCurrQuat (goals 0)) 8000,
   servoTier (clawDeltaNormOf clawRotationDefault armCurrQuat clawCurrQuat (goals 3))
      (clawSignOf clawRotationDefault armCurrQuat clawCurrQuat (goals 3)) 2000)

/-! The per-frame telemetry update of motor positions, from the after-render
callback registered in createScene (lines 352-388). -/

/-- WHEEL_TICKS_PER_RADIAN (line 83). -/
noncomputable def WHEEL_TICKS_PER_RADIAN : ℝ := 2048 / (2 * Real.pi)

/-- Motor positions written to the store by the after-render callback
(lines 361-384): the wheel rotation deltas since the previous frame are
extracted on the wheel axis, wrapped, converted to ticks and accumulated onto
channels 0 and 3, while channels 1 and 2 are written as literal zeros. -/
noncomputable def afterRenderMotorPositions (leftWheelRotationPrev rightWheelRotationPrev
    bodyQuat leftWheelQuat rightWheelQuat : Quat) (motorPositions : Fin 4 → ℝ) :
    Fin 4 → ℝ :=
  let leftWheelRotationCurr := bodyQuat.inverse * leftWheelQuat
  let rightWheelRotationCurr := bodyQuat.inverse * rightWheelQuat
  let leftRotation := wrapWheelRotation
    (getDeltaRotationOnAxis leftWheelRotationPrev leftWheelRotationCurr wheelRotationVector)
  let rightRotation := wrapWheelRotation
    (getDeltaRotationOnAxis rightWheelRotationPrev rightWheelRotationCurr wheelRotationVector)
  ![motorPositions 0 + leftRotation * WHEEL_TICKS_PER_RADIAN, 0, 0,
    motorPositions 3 + rightRotation * WHEEL_TICKS_PER_RADIAN]

/-! Robot repositioning: setRobotPosition (lines 736-769) and setOrigin
(lines 140-180). Both zero the linear and angular velocity of every rig root
body and then rigidly transport the five roots by parenting them under a
transform node moved from the body pose to the requested pose. -/

/-- Physics state of one rig root mesh: pose plus impostor velocities. -/
structure BodyState where
  position : Vec3
  rotation : Quat
  linearVelocity : Vec3
  angularVelocity : Vec3

/-- The five rig root bodies listed in setRobotPosition and setOrigin:
body compound, left wheel, right wheel, arm compound, claw compound. -/
structure RigRoots where
  body : BodyState
  leftWheel : BodyState
  rightWheel : BodyState
  arm : BodyState
  claw : BodyState

/-- Rotation of a vector by a quaternion, as the vector part of q (0, v) q⁻¹. -/
def quatRotate (q : Quat) (v : Vec3) : Vec3 :=
  (q * Quat.ofVec v * q.inverse).vec

/-- Effect on one root mesh of the reset-transform-node trick: its velocities
are zeroed (setLinearVelocity and setAngularVelocity with Vector3.Zero), and
its pose is transported rigidly from the old body pose to the target pose. -/
def repositionRoot (bodyPos : Vec3) (bodyRot : Quat) (targetPos : Vec3)
    (targetRot : Quat) (b : BodyState) : BodyState :=
  { position := Vec3.add targetPos
      (quatRotate (targetRot * bodyRot.inverse) (Vec3.sub b.position bodyPos))
    rotation := targetRot * bodyRot.inverse * b.rotation
    linearVelocity := Vec3.zero
    angularVelocity := Vec3.zero }

/-- Apply the reset-transform-node transport to all five rig roots. -/
def repositionRig (rig : RigRoots) (targetPos : Vec3) (targetRot : Quat) : RigRoots :=
  { body := repositionRoot rig.body.position rig.body.rotation targetPos targetRot rig.body
    leftWheel := repositionRoot rig.body.position rig.body.rotation targetPos targetRot rig.leftWheel
    rightWheel := repositionRoot rig.body.position rig.body.rotation targetPos targetRot rig.rightWheel
    arm := repositionRoot rig.body.position rig.body.rotation targetPos targetRot rig.arm
    claw := repositionRoot rig.body.position rig.body.rotation targetPos targetRot rig.claw }

/-- setRobotPosition (lines 736-769): the requested position is already in
centimeters and the heading is a rotation about the world up axis. -/
noncomputable def setRobotPosition (rig : RigRoots) (x y z theta : ℝ) : RigRoots :=
  repositionRig rig ⟨x, y, z⟩ ⟨0, Real.sin (theta / 2), 0, Real.cos (theta / 2)⟩

/-- setOrigin (lines 140-180), on the path where all five root meshes exist:
the origin position (converted to centimeters by the caller of this model) and
origin orientation quaternion are applied through the same transform node. -/
def setOrigin (rig : RigRoots) (originPos : Vec3) (originRot : Quat) : RigRoots :=
  repositionRig rig originPos originRot

/-! Scene-change coalescing, onStoreChange_ (lines 109-138). Scenes are
modeled by natural-number identities; the asynchronous body of the handler is
broken at its await points into an explicit phase. -/

/-- Phase of the asynchronous scene-application body of onStoreChange_:
either no application is running, or the first setScene call (for the scene
captured when the handler fired) is awaited, or the follow-up setScene call
(for the latest unfulfilled scene found after the first completed) is awaited. -/
inductive LoadPhase where
  | idle : LoadPhase
  | applyingFirst (orig : ℕ) : LoadPhase
  | applyingLatest (target : ℕ) : LoadPhase
deriving DecidableEq

/-- State of the scene-change machinery: the phase of the async body, the
latestUnfulfilledScene_ field, the scene currently applied to the scene
binding, and the physicsEnabled flag. -/
structure LoaderState where
  phase : LoadPhase
  latestUnfulfilledScene : ℕ
  binding : ℕ
  physicsEnabled : Bool
deriving DecidableEq

/-- Events driving the scene-change machinery: a store change carrying a new
working scene, or completion of the in-flight setScene call. -/
inductive LoadEvent where
  | request (scene : ℕ) : LoadEvent
  | finishApply : LoadEvent

/-- One step of onStoreChange_ and its async body (lines 114-138, with
debounceUpdate_ false). A request while sceneSetting_ is true only overwrites
latestUnfulfilledScene_; a request while idle starts the async body, which
disables physics and awaits setScene of the captured scene. When that first
setScene completes, the captured scene is installed in the binding; if
latestUnfulfilledScene_ differs from the captured scene a second setScene is
awaited for it, else physics is re-enabled and the body finishes. -/
def loaderStep (s : LoaderState) : LoadEvent → LoaderState
  | .request scene =>
    match s.phase with
    | .idle =>
      { s with phase := .applyingFirst scene, latestUnfulfilledScene := scene,
               physicsEnabled := false }
    | _ => { s with latestUnfulfilledScene := scene }
  | .finishApply =>
    match s.phase with
    | .idle => s
    | .applyingFirst orig =>
      if s.latestUnfulfilledScene ≠ orig then
        { s with binding := orig, phase := .applyingLatest s.latestUnfulfilledScene }
      else
        { s with binding := orig, phase := .idle, physicsEnabled := true }
    | .applyingLatest target =>
      { s with binding := target, phase := .idle, physicsEnabled := true }

/-- Run the loader over a list of events. -/
def loaderRun (s : LoaderState) (events : List LoadEvent) : LoaderState :=
  events.foldl loaderStep s

/-- The system has visibly settled when no scene application is in flight. -/
def loaderSettled (s : LoaderState) : Prop := s.phase = .idle

instance (s : LoaderState) : Decidable (loaderSettled s) := by
  unfold loaderSettled; infer_instance

/-! Rig construction from the collider manifest, loadMeshes (lines 391-622)
and ensureInitialized (lines 240-268). -/

/-- Body collider manifest (lines 424-439). -/
def bodyColliderMeshNames : List String :=
  ["collider_body", "collider_body_back_panel", "collider_body_front_panel",
   "collider_body_front_legos_1", "collider_body_front_legos_2",
   "collider_body_front_legos_3", "collider_body_lego", "collider_caster",
   "collider_touch_back_left", "collider_touch_back_right", "collider_touch_front",
   "collider_wallaby", "collider_battery", "collider_arm_servo"]

/-- Arm collider manifest (lines 448-457). -/
def armColliderMeshNames : List String :=
  ["collider_arm_claw_1", "collider_arm_claw_2", "collider_arm_claw_3",
   "collider_claw_servo", "collider_claw_servo_rod_1", "collider_claw_servo_rod_2",
   "collider_claw_et", "collider_arm_base"]

/-- Claw collider manifest (lines 466-471). -/
def clawColliderMeshNames : List String :=
  ["collider_claw_1", "collider_claw_2", "collider_claw_3", "collider_claw_3_metal"]

/-- Every collider mesh name required by the three manifests. -/
def requiredColliderMeshNames : List String :=
  bodyColliderMeshNames ++ armColliderMeshNames ++ clawColliderMeshNames

/-- Errors aborting loadMeshes: the explicit throw when a manifest entry has
no mesh in the loaded model (the Error with message failed to find collider
mesh in model, called MissingColliderError by the design spec), and the
TypeError raised by dereferencing the null result of an unchecked named
lookup. -/
inductive LoadError where
  | missingCollider (name : String) : LoadError
  | typeError (name : String) : LoadError
deriving DecidableEq

/-- Named scene objects dereferenced by loadMeshes with no null check before
the manifest loops run, in program order: the imported root mesh and the Root
transform node (lines 395-402), then the three compound-root reference meshes
collider_wallaby (lines 416-417), collider_claw_servo (lines 441-442) and
collider_claw_3 (lines 459-460). -/
def preLoopDereferences : List String :=
  ["__root__", "Root", "collider_wallaby", "collider_claw_servo", "collider_claw_3"]

/-- Named scene objects dereferenced by loadMeshes with no null check after
the manifest loops: the wheel collider meshes (lines 523-532), the visual
transform nodes (lines 535-540) and the servo horn and washer pivots
(lines 555-581). -/
def postLoopDereferences : List String :=
  ["collider_left_wheel", "collider_right_wheel", "ChassisWombat-1",
   "KIPR_Lower_final_062119-1", "1 x 5 Servo Horn-1", "1 x 5 Servo Horn-2",
   "Servo Wheel-1", "Servo Wheel-2", "Servo Washer-1", "Servo Washer-2"]

/-- Dereference a sequence of named scene objects in order: the first name
absent from the model makes the lookup return null and the immediate
dereference throw a TypeError, aborting the construction. -/
def dereferenceAll : List String → List String → Except LoadError Unit
  | [], _ => .ok ()
  | name :: rest, available =>
    if name ∈ available then dereferenceAll rest available
    else .error (.typeError name)

/-- Walk one collider manifest against the set of mesh names present in the
loaded model, attaching each found mesh and aborting with MissingColliderError
at the first absent one (the throw inside the for loops of loadMeshes). -/
def attachColliders : List String → List String → Except LoadError (List String)
  | [], _ => .ok []
  | name :: rest, available =>
    if name ∈ available then
      match attachColliders rest available with
      | .ok attached => .ok (name :: attached)
      | .error e => .error e
    else
      .error (.missingCollider name)

/-- The fully assembled rig: the collider meshes attached under each compound
root. A value of this type exists only when every manifest entry was found. -/
structure Rig where
  bodyColliders : List String
  armColliders : List String
  clawColliders : List String
deriving DecidableEq

/-- loadMeshes (lines 391-622), reduced to its named-lookup and manifest
processing in program order: the unchecked pre-loop dereferences, then the
body, arm and claw collider manifests with their explicit missing-mesh
throws, then the unchecked post-loop dereferences; the first failure aborts
the whole construction so that no rig value is produced. -/
def loadMeshes (available : List String) : Except LoadError Rig :=
  match dereferenceAll preLoopDereferences available with
  | .error e => .error e
  | .ok _ =>
    match attachColliders bodyColliderMeshNames available with
    | .error e => .error e
    | .ok bodyAttached =>
      match attachColliders armColliderMeshNames available with
      | .error e => .error e
      | .ok armAttached =>
        match attachColliders clawColliderMeshNames available with
        | .error e => .error e
        | .ok clawAttached =>
          match dereferenceAll postLoopDereferences available with
          | .error e => .error e
          | .ok _ => .ok ⟨bodyAttached, armAttached, clawAttached⟩

/-- ensureInitialized (lines 240-268): the initialization promise resolves
only if loadMeshes succeeded, and otherwise rejects with the loadMeshes error
(the catch handler forwards e to reject). -/
def ensureInitialized (available : List String) : Except LoadError Rig :=
  loadMeshes available

/-! The state reconciler, updateStore_ and getSignificantOriginChange
(lines 624-722). The unit-math and util modules they draw on are not part of
the sources here, so their value types and conversions are modelled from the
design spec and from the unit comments inside part_000. -/

/-- Modelled from the spec: the length unit tags of the unit-math module
(not under src). Scene coordinates are canonicalized in centimeters; the
declarative state may carry any unit type per coordinate. -/
inductive LengthType where
  | meters : LengthType
  | centimeters : LengthType
deriving DecidableEq

/-- Modelled from the spec: a tagged length value of the util module
(not under src), a unit type together with a real magnitude. -/
structure UnitValue where
  type : LengthType
  value : ℝ

/-- Modelled from the spec: conversion of a tagged length to its magnitude in
meters (100 centimeters to the meter). -/
noncomputable def UnitValue.toMetersValue : UnitValue → ℝ
  | ⟨.meters, v⟩ => v
  | ⟨.centimeters, v⟩ => v / 100

/-- Modelled from the spec: conversion of a tagged length into a requested
unit type, preserving the physical magnitude. -/
noncomputable def UnitValue.toType (u : UnitValue) (t : LengthType) : UnitValue :=
  match t with
  | .meters => ⟨.meters, u.toMetersValue⟩
  | .centimeters => ⟨.centimeters, u.toMetersValue * 100⟩

/-- Modelled from the spec: the UnitVector3 type of the unit-math module
(not under src), one tagged length per coordinate. -/
structure UnitVector3 where
  x : UnitValue
  y : UnitValue
  z : UnitValue

/-- Modelled from the spec: UnitVector3.fromRaw tags each raw coordinate with
the stated unit type. -/
def UnitVector3.fromRaw (v : Vec3) (t : LengthType) : UnitVector3 :=
  ⟨⟨t, v.x⟩, ⟨t, v.y⟩, ⟨t, v.z⟩⟩

/-- Modelled from the spec: UnitVector3.zero, the zero vector in the stated
unit type. -/
def UnitVector3.zero (t : LengthType) : UnitVector3 :=
  UnitVector3.fromRaw Vec3.zero t

/-- Modelled from the spec: UnitVector3.distance returns the Euclidean
distance between the two positions as a value in meters (the source comment at
part_000 line 699 states the distance is in meters, and the 0.005 threshold is
read as 0.5 cm at line 702). -/
noncomputable def UnitVector3.distance (a b : UnitVector3) : UnitValue :=
  ⟨.meters, Real.sqrt ((a.x.toMetersValue - b.x.toMetersValue) ^ 2 +
    (a.y.toMetersValue - b.y.toMetersValue) ^ 2 +
    (a.z.toMetersValue - b.z.toMetersValue) ^ 2)⟩

/-- Modelled from the spec: UnitVector3.toTypeGranular converts each
coordinate into its own requested unit type, preserving magnitudes. -/
noncomputable def UnitVector3.toTypeGranular (v : UnitVector3) (tx ty tz : LengthType) : UnitVector3 :=
  ⟨v.x.toType tx, v.y.toType ty, v.z.toType tz⟩

/-- Modelled from the spec: rotation representation tags of the unit-math
Rotation type (not under src). -/
inductive RotationType where
  | euler : RotationType
  | axisAngle : RotationType
deriving DecidableEq

/-- Modelled from the spec: a unit-math Rotation, a representation tag
together with the underlying orientation quaternion. -/
structure RotationU where
  type : RotationType
  quaternion : Quat

/-- Modelled from the spec: Rotation.fromRawQuaternion tags a raw quaternion
with the requested representation. -/
def RotationU.fromRawQuaternion (q : Quat) (t : RotationType) : RotationU :=
  ⟨t, q⟩

/-- Modelled from the spec: Rotation.toType re-tags a rotation with the
requested representation, preserving the orientation. -/
def RotationU.toType (r : RotationU) (t : RotationType) : RotationU :=
  ⟨t, r.quaternion⟩

/-- Modelled from the spec: the composition of Rotation.angle and
Angle.toRadians (both not under src) used at part_000 lines 712-713, the
unsigned angle in radians between two orientations, computed from the absolute
dot product of the unit quaternions. -/
noncomputable def rotationAngleRadians (a b : RotationU) : ℝ :=
  2 * Real.arccos (min 1
    |a.quaternion.x * b.quaternion.x + a.quaternion.y * b.quaternion.y +
     a.quaternion.z * b.quaternion.z + a.quaternion.w * b.quaternion.w|)

/-- The origin record of a declarative scene node, and equally the shape of a
significant-change record: optional position, orientation and scale fields. -/
structure OriginFrame where
  position : Option UnitVector3
  orientation : Option RotationU
  scale : Option UnitVector3

/-- getSignificantOriginChange (lines 678-722): compare the declarative origin
of a node with the live position and rotation of its scene counterpart; report
the position converted to the original per-coordinate unit types when the
distance exceeds the 0.005 meter (0.5 cm) threshold, and the orientation
converted to the original representation when the angle exceeds 0.00872665
radians; the scale field is never reported. -/
noncomputable def getSignificantOriginChange (currentOrigin : OriginFrame)
    (bPosition : Vec3) (bRotation : Quat) : OriginFrame :=
  let position := currentOrigin.position.getD (UnitVector3.zero .meters)
  let rotation := currentOrigin.orientation.getD
    (RotationU.fromRawQuaternion Quat.one .euler)
  let bPositionConv := UnitVector3.fromRaw bPosition .centimeters
  let distance := UnitVector3.distance position bPositionConv
  let changePosition : Option UnitVector3 :=
    if distance.value > 0.005 then
      some (UnitVector3.toTypeGranular bPositionConv position.x.type position.y.type
        position.z.type)
    else none
  let bOrientationConv := RotationU.fromRawQuaternion bRotation .euler
  let radians := rotationAngleRadians rotation bOrientationConv
  let changeOrientation : Option RotationU :=
    if radians > 0.00872665 then some (RotationU.toType bOrientationConv rotation.type)
    else none
  ⟨changePosition, changeOrientation, none⟩

/-- Guard of updateStore_ (line 643): a node enters the batched state-update
request exactly when its significant-change record has any field present. -/
noncomputable def originChangeTriggers (currentOrigin : OriginFrame)
    (bPosition : Vec3) (bRotation : Quat) : Prop :=
  (getSignificantOriginChange currentOrigin bPosition bRotation).position.isSome ∨
  (getSignificantOriginChange currentOrigin bPosition bRotation).orientation.isSome ∨
  (getSignificantOriginChange currentOrigin bPosition bRotation).scale.isSome

/-- updateStore_ (lines 625-676), restricted to the node loop: the ids of the
nodes whose live pose diverged significantly from the declarative origin, in
the order scanned; nodes with no live counterpart are skipped. -/
noncomputable def updateStoreNodeIds
    (nodes : List (String × OriginFrame)) (live : String → Option (Vec3 × Quat)) :
    List String :=
  (nodes.filter fun n =>
    match live n.1 with
    | none => false
    | some (p, r) =>
      (getSignificantOriginChange n.2 p r).position.isSome ||
      (getSignificantOriginChange n.2 p r).orientation.isSome ||
      (getSignificantOriginChange n.2 p r).scale.isSome).map Prod.fst

/-! Theorems. -/

theorem clampSpeed_abs_le (v : ℚ) : |clampSpeed v| ≤ 1500 := by
  rw [abs_le]
  constructor
  · exact le_max_left _ _
  · exact max_le (by norm_num [MAX_MOTOR_VELOCITY]) (min_le_right _ _)

theorem clampSpeed_of_abs_le (v : ℚ) (hv : |v| ≤ 1500) : clampSpeed v = v := by
  rw [abs_le] at hv
  unfold clampSpeed MAX_MOTOR_VELOCITY
  rw [min_eq_left hv.2, max_eq_right hv.1]

/-- C4: each commanded wheel speed is clamped to the interval from -1500 to
1500 and then divided by 315, so the magnitude of the value passed to setMotor
on either wheel joint never exceeds 1500 / 315, including for commanded speeds
whose magnitude exceeds 1500, where the clamp saturates. -/
theorem c4_drive_motor_clamped (leftSpeed rightSpeed : ℚ) :
    (setDriveMotors leftSpeed rightSpeed).1 = clampSpeed leftSpeed / 315 ∧
    (setDriveMotors leftSpeed rightSpeed).2 = -(clampSpeed rightSpeed) / 315 ∧
    |(setDriveMotors leftSpeed rightSpeed).1| ≤ MAX_MOTOR_VELOCITY / 315 ∧
    |(setDriveMotors leftSpeed rightSpeed).2| ≤ MAX_MOTOR_VELOCITY / 315 ∧
    (1500 < |leftSpeed| → |(setDriveMotors leftSpeed rightSpeed).1| = 1500 / 315) ∧
    (1500 < |rightSpeed| → |(setDriveMotors leftSpeed rightSpeed).2| = 1500 / 315) := by
  have hsat : ∀ v : ℚ, 1500 < |v| → |clampSpeed v| = 1500 := by
    intro v hv
    rcases lt_abs.mp hv with h | h
    · unfold clampSpeed MAX_MOTOR_VELOCITY
      rw [min_eq_right h.le, max_eq_right (by norm_num)]
      norm_num
    · unfold clampSpeed MAX_MOTOR_VELOCITY
      rw [min_eq_left (by linarith), max_eq_left (by linarith)]
      norm_num
  have habs : ∀ v : ℚ, |v / 315| = |v| / 315 := by
    intro v
    rw [abs_div]
    norm_num
  refine ⟨rfl, rfl, ?_, ?_, ?_, ?_⟩
  · show |clampSpeed leftSpeed / 315| ≤ MAX_MOTOR_VELOCITY / 315
    rw [habs, MAX_MOTOR_VELOCITY]
    have h := clampSpeed_abs_le leftSpeed
    gcongr
  · show |-(clampSpeed rightSpeed) / 315| ≤ MAX_MOTOR_VELOCITY / 315
    rw [neg_div, abs_neg, habs, MAX_MOTOR_VELOCITY]
    have h := clampSpeed_abs_le rightSpeed
    gcongr
  · intro h
    show |clampSpeed leftSpeed / 315| = 1500 / 315
    rw [habs, hsat leftSpeed h]
  · intro h
    show |-(clampSpeed rightSpeed) / 315| = 1500 / 315
    rw [neg_div, abs_neg, habs, hsat rightSpeed h]

/-- Witness for C4: at commanded speeds 2000 and -3000, both beyond the clamp
range, the applied motor command magnitudes are exactly 1500 / 315. -/
theorem c4_drive_motor_clamped_witness :
    |(setDriveMotors 2000 (-3000)).1| = 1500 / 315 ∧
    |(setDriveMotors 2000 (-3000)).2| = 1500 / 315 :=
  ⟨(c4_drive_motor_clamped 2000 (-3000)).2.2.2.2.1 (by norm_num),
   (c4_drive_motor_clamped 2000 (-3000)).2.2.2.2.2 (by norm_num)⟩

/-- C5: driving the wheels with leftSpeed v and rightSpeed -v, for v within the
clamping range, makes the two wheel joints spin with equal magnitude and
opposite sign: the raw setMotor values have equal absolute value, and the
world-frame angular commands along the mirrored joint main axes are exact
negatives of each other. -/
theorem c5_opposed_speeds_mirror (v : ℚ) (hv : |v| ≤ MAX_MOTOR_VELOCITY) :
    |(setDriveMotors v (-v)).1| = |(setDriveMotors v (-v)).2| ∧
    (jointWorldCommand (setDriveMotors v (-v)).1 leftWheelMainAxis).1 =
      -(jointWorldCommand (setDriveMotors v (-v)).2 rightWheelMainAxis).1 ∧
    (jointWorldCommand (setDriveMotors v (-v)).1 leftWheelMainAxis).2.1 =
      -(jointWorldCommand (setDriveMotors v (-v)).2 rightWheelMainAxis).2.1 ∧
    (jointWorldCommand (setDriveMotors v (-v)).1 leftWheelMainAxis).2.2 =
      -(jointWorldCommand (setDriveMotors v (-v)).2 rightWheelMainAxis).2.2 := by
  have h1 : clampSpeed v = v := clampSpeed_of_abs_le v (by simpa [MAX_MOTOR_VELOCITY] using hv)
  have h2 : clampSpeed (-v) = -v := by
    apply clampSpeed_of_abs_le
    rw [abs_neg]
    simpa [MAX_MOTOR_VELOCITY] using hv
  simp only [setDriveMotors, h1, h2, jointWorldCommand, leftWheelMainAxis,
    rightWheelMainAxis]
  norm_num

/-- Witness for C5: at commanded speed 315 the left and right wheel joints
receive world-frame commands that are exact negatives. -/
theorem c5_opposed_speeds_mirror_witness :
    |(setDriveMotors 315 (-315)).1| = |(setDriveMotors 315 (-315)).2| ∧
    (jointWorldCommand (setDriveMotors 315 (-315)).1 leftWheelMainAxis).1 =
      -(jointWorldCommand (setDriveMotors 315 (-315)).2 rightWheelMainAxis).1 ∧
    (jointWorldCommand (setDriveMotors 315 (-315)).1 leftWheelMainAxis).2.1 =
      -(jointWorldCommand (setDriveMotors 315 (-315)).2 rightWheelMainAxis).2.1 ∧
    (jointWorldCommand (setDriveMotors 315 (-315)).1 leftWheelMainAxis).2.2 =
      -(jointWorldCommand (setDriveMotors 315 (-315)).2 rightWheelMainAxis).2.2 :=
  c5_opposed_speeds_mirror 315 (by norm_num [MAX_MOTOR_VELOCITY])

/-- C7: when a scene-change request for B arrives while the change to A is
still being applied, the new request does not start a concurrent application
(the phase remains the first application of A); after A completes, the pending
latest request B is applied, and the system settles on B; at no point between
the first request and the final completion is the system settled, so it never
visibly settles on A. -/
theorem c7_scene_change_coalescing (s : LoaderState) (A B : ℕ)
    (hidle : s.phase = .idle) (hne : A ≠ B) :
    ¬ loaderSettled (loaderRun s [.request A]) ∧
    (loaderRun s [.request A, .request B]).phase = .applyingFirst A ∧
    (loaderRun s [.request A, .request B]).latestUnfulfilledScene = B ∧
    (loaderRun s [.request A, .request B, .finishApply]).phase = .applyingLatest B ∧
    ¬ loaderSettled (loaderRun s [.request A, .request B, .finishApply]) ∧
    loaderSettled (loaderRun s [.request A, .request B, .finishApply, .finishApply]) ∧
    (loaderRun s [.request A, .request B, .finishApply, .finishApply]).binding = B := by
  have hBA : B ≠ A := Ne.symm hne
  refine ⟨?_, ?_, ?_, ?_, ?_, ?_, ?_⟩ <;>
    simp [loaderRun, loaderStep, loaderSettled, hidle, hBA]

/-- Witness for C7: from an idle state bound to scene 0, requesting scene 1 and
then scene 2 before the first application completes ends with the binding on
scene 2 and never settles in between. -/
theorem c7_scene_change_coalescing_witness :
    ¬ loaderSettled (loaderRun ⟨.idle, 0, 0, true⟩ [.request 1]) ∧
    (loaderRun ⟨.idle, 0, 0, true⟩ [.request 1, .request 2]).phase = .applyingFirst 1 ∧
    (loaderRun ⟨.idle, 0, 0, true⟩ [.request 1, .request 2]).latestUnfulfilledScene = 2 ∧
    (loaderRun ⟨.idle, 0, 0, true⟩
      [.request 1, .request 2, .finishApply]).phase = .applyingLatest 2 ∧
    ¬ loaderSettled (loaderRun ⟨.idle, 0, 0, true⟩ [.request 1, .request 2, .finishApply]) ∧
    loaderSettled (loaderRun ⟨.idle, 0, 0, true⟩
      [.request 1, .request 2, .finishApply, .finishApply]) ∧
    (loaderRun ⟨.idle, 0, 0, true⟩
      [.request 1, .request 2, .finishApply, .finishApply]).binding = 2 :=
  c7_scene_change_coalescing ⟨.idle, 0, 0, true⟩ 1 2 rfl (by decide)

/-- C9: the after-render telemetry write stores accumulated ticks only on
channels 0 and 3 of the motor position array, and writes literal zeros over
channels 1 and 2 whatever their previous values were. -/
theorem c9_motor_positions_zeroed (leftWheelRotationPrev rightWheelRotationPrev
    bodyQuat leftWheelQuat rightWheelQuat : Quat) (motorPositions : Fin 4 → ℝ) :
    afterRenderMotorPositions leftWheelRotationPrev rightWheelRotationPrev
      bodyQuat leftWheelQuat rightWheelQuat motorPositions 1 = 0 ∧
    afterRenderMotorPositions leftWheelRotationPrev rightWheelRotationPrev
      bodyQuat leftWheelQuat rightWheelQuat motorPositions 2 = 0 ∧
    afterRenderMotorPositions leftWheelRotationPrev rightWheelRotationPrev
      bodyQuat leftWheelQuat rightWheelQuat motorPositions 0 =
      motorPositions 0 + wrapWheelRotation (getDeltaRotationOnAxis leftWheelRotationPrev
        (bodyQuat.inverse * leftWheelQuat) wheelRotationVector) * WHEEL_TICKS_PER_RADIAN ∧
    afterRenderMotorPositions leftWheelRotationPrev rightWheelRotationPrev
      bodyQuat leftWheelQuat rightWheelQuat motorPositions 3 =
      motorPositions 3 + wrapWheelRotation (getDeltaRotationOnAxis rightWheelRotationPrev
        (bodyQuat.inverse * rightWheelQuat) wheelRotationVector) * WHEEL_TICKS_PER_RADIAN := by
  refine ⟨?_, ?_, ?_, ?_⟩ <;> simp [afterRenderMotorPositions]

/-- C10: setRobotPosition and setOrigin both zero the linear velocity and the
angular velocity of all five rig root bodies while repositioning the robot, so
repositioning also halts any motion the robot had. -/
theorem c10_reposition_halts_motion (rig : RigRoots) (x y z theta : ℝ)
    (originPos : Vec3) (originRot : Quat) :
    ((setRobotPosition rig x y z theta).body.linearVelocity = Vec3.zero ∧
     (setRobotPosition rig x y z theta).body.angularVelocity = Vec3.zero ∧
     (setRobotPosition rig x y z theta).leftWheel.linearVelocity = Vec3.zero ∧
     (setRobotPosition rig x y z theta).leftWheel.angularVelocity = Vec3.zero ∧
     (setRobotPosition rig x y z theta).rightWheel.linearVelocity = Vec3.zero ∧
     (setRobotPosition rig x y z theta).rightWheel.angularVelocity = Vec3.zero ∧
     (setRobotPosition rig x y z theta).arm.linearVelocity = Vec3.zero ∧
     (setRobotPosition rig x y z theta).arm.angularVelocity = Vec3.zero ∧
     (setRobotPosition rig x y z theta).claw.linearVelocity = Vec3.zero ∧
     (setRobotPosition rig x y z theta).claw.angularVelocity = Vec3.zero) ∧
    ((setOrigin rig originPos originRot).body.linearVelocity = Vec3.zero ∧
     (setOrigin rig originPos originRot).body.angularVelocity = Vec3.zero ∧
     (setOrigin rig originPos originRot).leftWheel.linearVelocity = Vec3.zero ∧
     (setOrigin rig originPos originRot).leftWheel.angularVelocity = Vec3.zero ∧
     (setOrigin rig originPos originRot).rightWheel.linearVelocity = Vec3.zero ∧
     (setOrigin rig originPos originRot).rightWheel.angularVelocity = Vec3.zero ∧
     (setOrigin rig originPos originRot).arm.linearVelocity = Vec3.zero ∧
     (setOrigin rig originPos originRot).arm.angularVelocity = Vec3.zero ∧
     (setOrigin rig originPos originRot).claw.linearVelocity = Vec3.zero ∧
     (setOrigin rig originPos originRot).claw.angularVelocity = Vec3.zero) :=
  ⟨⟨rfl, rfl, rfl, rfl, rfl, rfl, rfl, rfl, rfl, rfl⟩,
   ⟨rfl, rfl, rfl, rfl, rfl, rfl, rfl, rfl, rfl, rfl⟩⟩

theorem attachColliders_ok_of_all_mem (names available : List String)
    (h : ∀ n ∈ names, n ∈ available) :
    ∃ l, attachColliders names available = .ok l := by
  induction names with
  | nil => exact ⟨[], rfl⟩
  | cons a rest ih =>
    have ha : a ∈ available := h a (by simp)
    obtain ⟨l, hl⟩ := ih (fun n hn => h n (by simp [hn]))
    exact ⟨a :: l, by simp [attachColliders, ha, hl]⟩

theorem attachColliders_error_of_missing (names available : List String)
    (h : ∃ n ∈ names, n ∉ available) :
    ∃ m, m ∉ available ∧ attachColliders names available = .error (.missingCollider m) := by
  induction names with
  | nil => simp at h
  | cons a rest ih =>
    by_cases ha : a ∈ available
    · have h2 : ∃ n ∈ rest, n ∉ available := by
        obtain ⟨n, hn, hn2⟩ := h
        rcases List.mem_cons.mp hn with rfl | hmem
        · exact absurd ha hn2
        · exact ⟨n, hmem, hn2⟩
      obtain ⟨m, hm, hm2⟩ := ih h2
      exact ⟨m, hm, by simp [attachColliders, ha, hm2]⟩
    · exact ⟨a, ha, by simp [attachColliders, ha]⟩

theorem dereferenceAll_ok_of_all_mem (names available : List String)
    (h : ∀ n ∈ names, n ∈ available) :
    dereferenceAll names available = .ok () := by
  induction names with
  | nil => rfl
  | cons a rest ih =>
    have ha : a ∈ available := h a (by simp)
    simp [dereferenceAll, ha, ih (fun n hn => h n (by simp [hn]))]

theorem dereferenceAll_error_of_missing (names available : List String)
    (h : ∃ n ∈ names, n ∉ available) :
    ∃ m, m ∉ available ∧ dereferenceAll names available = .error (.typeError m) := by
  induction names with
  | nil => simp at h
  | cons a rest ih =>
    by_cases ha : a ∈ available
    · have h2 : ∃ n ∈ rest, n ∉ available := by
        obtain ⟨n, hn, hn2⟩ := h
        rcases List.mem_cons.mp hn with rfl | hmem
        · exact absurd ha hn2
        · exact ⟨n, hmem, hn2⟩
      obtain ⟨m, hm, hm2⟩ := ih h2
      exact ⟨m, hm, by simp [dereferenceAll, ha, hm2]⟩
    · exact ⟨a, ha, by simp [dereferenceAll, ha]⟩

theorem loadMeshes_error_of_missing (available : List String)
    (hpre : ∀ n ∈ preLoopDereferences, n ∈ available)
    (h : ∃ n ∈ requiredColliderMeshNames, n ∉ available) :
    ∃ m, m ∉ available ∧ loadMeshes available = .error (.missingCollider m) := by
  have hpredone : dereferenceAll preLoopDereferences available = .ok () :=
    dereferenceAll_ok_of_all_mem _ _ hpre
  by_cases hb : ∃ n ∈ bodyColliderMeshNames, n ∉ available
  · obtain ⟨m, hm, hm2⟩ := attachColliders_error_of_missing _ _ hb
    exact ⟨m, hm, by simp [loadMeshes, hpredone, hm2]⟩
  · push_neg at hb
    obtain ⟨lb, hlb⟩ := attachColliders_ok_of_all_mem _ _ hb
    by_cases harm : ∃ n ∈ armColliderMeshNames, n ∉ available
    · obtain ⟨m, hm, hm2⟩ := attachColliders_error_of_missing _ _ harm
      exact ⟨m, hm, by simp [loadMeshes, hpredone, hlb, hm2]⟩
    · push_neg at harm
      obtain ⟨la, hla⟩ := attachColliders_ok_of_all_mem _ _ harm
      have hclaw : ∃ n ∈ clawColliderMeshNames, n ∉ available := by
        obtain ⟨n, hn, hn2⟩ := h
        rcases List.mem_append.mp hn with hn3 | hn3
        · rcases List.mem_append.mp hn3 with hn4 | hn4
          · exact absurd (hb n hn4) hn2
          · exact absurd (harm n hn4) hn2
        · exact ⟨n, hn3, hn2⟩
      obtain ⟨m, hm, hm2⟩ := attachColliders_error_of_missing _ _ hclaw
      exact ⟨m, hm, by simp [loadMeshes, hpredone, hlb, hla, hm2]⟩

theorem loadMeshes_error_of_missing_any (available : List String) (name : String)
    (hreq : name ∈ requiredColliderMeshNames) (hmiss : name ∉ available) :
    ∃ e, loadMeshes available = .error e := by
  by_cases hpre : ∀ n ∈ preLoopDereferences, n ∈ available
  · obtain ⟨m, _, hm⟩ := loadMeshes_error_of_missing available hpre ⟨name, hreq, hmiss⟩
    exact ⟨_, hm⟩
  · push_neg at hpre
    obtain ⟨n, hn, hn2⟩ := hpre
    obtain ⟨m, _, hm⟩ := dereferenceAll_error_of_missing preLoopDereferences available
      ⟨n, hn, hn2⟩
    exact ⟨.typeError m, by simp [loadMeshes, hm]⟩

/-- C8 counterexample: collider_wallaby is named in the body collider
manifest, yet when it is absent from the loaded model (which does contain
the import root objects) rig construction fails with the TypeError of the
unchecked dereference at lines 416-417 and never reaches the manifest check,
so the failure is not the MissingColliderError the claim asserts for every
missing manifest mesh. -/
theorem c8_missing_collider_aborts_counterexample :
    "collider_wallaby" ∈ requiredColliderMeshNames ∧
    "collider_wallaby" ∉ ["__root__", "Root"] ∧
    loadMeshes ["__root__", "Root"] =
      Except.error (LoadError.typeError "collider_wallaby") ∧
    ∀ m, loadMeshes ["__root__", "Root"] ≠
      Except.error (LoadError.missingCollider m) := by
  have hload : loadMeshes ["__root__", "Root"] =
      Except.error (LoadError.typeError "collider_wallaby") := by rfl
  refine ⟨by decide, by decide, hload, fun m hm => ?_⟩
  rw [hload] at hm
  simp at hm

/-- C8 amended: when any collider mesh named in one of the three manifests is
missing from the loaded model, rig construction aborts with an error — no rig
value is produced at all — and ensureInitialized surfaces the same error to
the caller as a rejected initialization; whenever the unchecked pre-loop
lookups all succeed (in particular whenever the missing manifest mesh is not
one of collider_wallaby, collider_claw_servo or collider_claw_3), that error
is the fatal MissingColliderError for a missing manifest mesh. -/
theorem c8_missing_collider_aborts (available : List String) (name : String)
    (hreq : name ∈ requiredColliderMeshNames) (hmiss : name ∉ available) :
    (∀ rig, loadMeshes available ≠ Except.ok rig) ∧
    (∃ e, loadMeshes available = Except.error e ∧
      ensureInitialized available = Except.error e) ∧
    ((∀ n ∈ preLoopDereferences, n ∈ available) →
      ∃ m, m ∉ available ∧
        loadMeshes available = Except.error (LoadError.missingCollider m) ∧
        ensureInitialized available = Except.error (LoadError.missingCollider m)) := by
  obtain ⟨e, he⟩ := loadMeshes_error_of_missing_any available name hreq hmiss
  refine ⟨fun rig hok => by simp [he] at hok,
    ⟨e, he, by simpa [ensureInitialized] using he⟩, fun hpre => ?_⟩
  obtain ⟨m, hm, hm2⟩ := loadMeshes_error_of_missing available hpre ⟨name, hreq, hmiss⟩
  exact ⟨m, hm, hm2, by simpa [ensureInitialized] using hm2⟩

/-- Witness for C8: a model containing exactly the unchecked pre-loop lookup
targets is missing the manifest mesh collider_body, so the manifest walk
aborts with the missing-collider error and initialization rejects with it. -/
theorem c8_missing_collider_aborts_witness :
    (∀ rig, loadMeshes preLoopDereferences ≠ Except.ok rig) ∧
    (∃ e, loadMeshes preLoopDereferences = Except.error e ∧
      ensureInitialized preLoopDereferences = Except.error e) ∧
    (∃ m, m ∉ preLoopDereferences ∧
      loadMeshes preLoopDereferences = Except.error (LoadError.missingCollider m) ∧
      ensureInitialized preLoopDereferences =
        Except.error (LoadError.missingCollider m)) :=
  have h := c8_missing_collider_aborts preLoopDereferences "collider_body"
    (by decide) (by decide)
  ⟨h.1, h.2.1, h.2.2 (fun n hn => hn)⟩

theorem twistPreNormalize_pure_w (w : ℝ) (d : Vec3) :
    twistPreNormalize ⟨0, 0, 0, w⟩ d = ⟨0, 0, 0, w⟩ := by
  simp [twistPreNormalize, Vec3.dot, Vec3.scale]

theorem normalize_wone : Quat.normalize ⟨0, 0, 0, 1⟩ = ⟨0, 0, 0, 1⟩ := by
  have h : Quat.normSq ⟨0, 0, 0, 1⟩ = 1 := by norm_num [Quat.normSq]
  simp [Quat.normalize, Quat.length, h, Real.sqrt_one, Quat.scaleQ]

theorem getTwist_identity (d : Vec3) :
    getTwistForQuaternion ⟨0, 0, 0, 1⟩ d = ⟨0, 0, 0, 1⟩ := by
  simp [getTwistForQuaternion, twistPreNormalize_pure_w, normalize_wone, Vec3.dot]

theorem getDeltaRotationOnAxis_self (q : Quat) (a : Vec3) (hq : q.normSq = 1) :
    getDeltaRotationOnAxis q q a = 0 := by
  have hdelta : q * q.inverse = (⟨0, 0, 0, 1⟩ : Quat) := by
    rw [Quat.mul_inverse_self, hq]
  simp [getDeltaRotationOnAxis, hdelta, getTwist_identity, Real.arccos_one]

theorem getTwist_aligned (v : Vec3) (s c : ℝ) (hv : v.normSq = 1) (hs : 0 < s)
    (hsc : s ^ 2 + c ^ 2 = 1) :
    getTwistForQuaternion ⟨s * v.x, s * v.y, s * v.z, c⟩ v =
      ⟨s * v.x, s * v.y, s * v.z, c⟩ := by
  have hvc : v.x ^ 2 + v.y ^ 2 + v.z ^ 2 = 1 := by simpa [Vec3.normSq] using hv
  have hdot : Vec3.dot v ⟨s * v.x, s * v.y, s * v.z⟩ = s := by
    simp only [Vec3.dot]
    linear_combination s * hvc
  have hpre : twistPreNormalize ⟨s * v.x, s * v.y, s * v.z, c⟩ v =
      ⟨v.x * s, v.y * s, v.z * s, c⟩ := by
    simp only [twistPreNormalize, Vec3.scale, hdot]
  have hnorm : Quat.normSq ⟨v.x * s, v.y * s, v.z * s, c⟩ = 1 := by
    simp only [Quat.normSq]
    linear_combination s ^ 2 * hvc + hsc
  have hlen : Quat.length ⟨v.x * s, v.y * s, v.z * s, c⟩ = 1 := by
    rw [Quat.length, hnorm, Real.sqrt_one]
  have hnormalize : Quat.normalize ⟨v.x * s, v.y * s, v.z * s, c⟩ =
      ⟨s * v.x, s * v.y, s * v.z, c⟩ := by
    rw [Quat.normalize, hlen]
    ext <;> simp [Quat.scaleQ] <;> ring
  simp only [getTwistForQuaternion, hpre, hnormalize, hdot]
  rw [if_neg (not_lt.mpr hs.le)]

/-- Value of the extractor when the end orientation is the start orientation
composed with a local rotation about the measurement axis: the reported value
is twice the arccosine of the half-angle cosine. -/
theorem getDelta_local_rotation (q : Quat) (a : Vec3) (hq : q.normSq = 1)
    (ha : a.normSq = 1) (s c : ℝ) (hs : 0 < s) (hsc : s ^ 2 + c ^ 2 = 1) :
    getDeltaRotationOnAxis q (q * ⟨s * a.x, s * a.y, s * a.z, c⟩) a =
      2 * Real.arccos c := by
  have hofv : (⟨a.x, a.y, a.z, 0⟩ : Quat) = Quat.ofVec a := rfl
  simp only [getDeltaRotationOnAxis, hofv]
  set A := q * Quat.ofVec a * q.inverse with hA
  have hAnorm : A.vec.normSq = 1 := by
    rw [hA, Quat.conjugation_pure_normSq, hq, ha]
    norm_num
  have hdelta : q * (⟨s * a.x, s * a.y, s * a.z, c⟩ : Quat) * q.inverse =
      ⟨s * A.x, s * A.y, s * A.z, c⟩ := by
    rw [Quat.conjugation_decomp, hq, mul_one]
  rw [hdelta]
  have htw := getTwist_aligned A.vec s c hAnorm hs hsc
  simp only [Quat.vec] at htw ⊢
  rw [htw]

/-- C6: the swing-twist extractor applied with identical start and end
orientations (a unit quaternion) and a normalized axis reports angle zero, and
the quaternion handed to the normalize call inside the twist decomposition has
length exactly one, so no division by zero occurs even though the swing
component of the identity delta has magnitude zero. -/
theorem c6_extractor_identity_stable (q : Quat) (a : Vec3)
    (hq : q.normSq = 1) (ha : a.normSq = 1) :
    getDeltaRotationOnAxis q q a = 0 ∧
    Quat.length (twistPreNormalize (q * q.inverse)
      (q * Quat.ofVec a * q.inverse).vec) = 1 := by
  have hdelta : q * q.inverse = (⟨0, 0, 0, 1⟩ : Quat) := by
    rw [Quat.mul_inverse_self, hq]
  refine ⟨getDeltaRotationOnAxis_self q a hq, ?_⟩
  rw [hdelta, twistPreNormalize_pure_w]
  have h : Quat.normSq ⟨0, 0, 0, 1⟩ = 1 := by norm_num [Quat.normSq]
  rw [Quat.length, h, Real.sqrt_one]

/-- Witness for C6: the identity orientation with the arm measurement axis. -/
theorem c6_extractor_identity_stable_witness :
    getDeltaRotationOnAxis Quat.one Quat.one ⟨1, 0, 0⟩ = 0 ∧
    Quat.length (twistPreNormalize (Quat.one * Quat.one.inverse)
      (Quat.one * Quat.ofVec ⟨1, 0, 0⟩ * Quat.one.inverse).vec) = 1 :=
  c6_extractor_identity_stable Quat.one ⟨1, 0, 0⟩
    (by norm_num [Quat.normSq, Quat.one]) (by norm_num [Vec3.normSq])

/-- C3: per-frame wheel rotation deltas are normalized into the half-open
interval from -pi exclusive to pi inclusive by subtracting 2 pi exactly when
the raw extracted angle (which lies in the range of 2 * arccos) exceeds pi;
and a wheel whose orientation advanced by 3 pi / 2 radians about the wheel
axis between two frames (the quaternion with half-angle 3 pi / 4 about that
axis) is reported as a wrapped delta of -(pi / 2), not 3 pi / 2. -/
theorem c3_wheel_delta_wrap :
    (∀ r : ℝ, 0 ≤ r → r ≤ 2 * Real.pi →
      (wrapWheelRotation r = if r > Real.pi then r - 2 * Real.pi else r) ∧
      -Real.pi < wrapWheelRotation r ∧ wrapWheelRotation r ≤ Real.pi) ∧
    (∀ (q : Quat) (a : Vec3), q.normSq = 1 → a.normSq = 1 →
      wrapWheelRotation (getDeltaRotationOnAxis q
        (q * ⟨Real.sin (3 * Real.pi / 4) * a.x, Real.sin (3 * Real.pi / 4) * a.y,
              Real.sin (3 * Real.pi / 4) * a.z, Real.cos (3 * Real.pi / 4)⟩) a) =
        -(Real.pi / 2)) := by
  constructor
  · intro r h0 h2
    refine ⟨rfl, ?_, ?_⟩
    · unfold wrapWheelRotation
      split
      · next h => linarith
      · next h => linarith [Real.pi_pos]
    · unfold wrapWheelRotation
      split
      · next h => linarith [Real.pi_pos]
      · next h => linarith
  · intro q a hq ha
    have hs : 0 < Real.sin (3 * Real.pi / 4) := by
      apply Real.sin_pos_of_pos_of_lt_pi
      · linarith [Real.pi_pos]
      · linarith [Real.pi_pos]
    have hsc : Real.sin (3 * Real.pi / 4) ^ 2 + Real.cos (3 * Real.pi / 4) ^ 2 = 1 :=
      Real.sin_sq_add_cos_sq _
    rw [getDelta_local_rotation q a hq ha _ _ hs hsc]
    have harc : Real.arccos (Real.cos (3 * Real.pi / 4)) = 3 * Real.pi / 4 := by
      apply Real.arccos_cos
      · linarith [Real.pi_pos]
      · linarith [Real.pi_pos]
    rw [harc]
    unfold wrapWheelRotation
    rw [if_pos (by linarith [Real.pi_pos] : 2 * (3 * Real.pi / 4) > Real.pi)]
    ring

/-- Witness for C3: the wrap bounds at the raw angle 3 pi / 2, and the wrapped
extractor value for a wheel starting at the identity orientation that advanced
by 3 pi / 2 about the wheel rotation axis. -/
theorem c3_wheel_delta_wrap_witness :
    ((wrapWheelRotation (3 * Real.pi / 2) =
        if 3 * Real.pi / 2 > Real.pi then 3 * Real.pi / 2 - 2 * Real.pi
        else 3 * Real.pi / 2) ∧
      -Real.pi < wrapWheelRotation (3 * Real.pi / 2) ∧
      wrapWheelRotation (3 * Real.pi / 2) ≤ Real.pi) ∧
    wrapWheelRotation (getDeltaRotationOnAxis Quat.one
      (Quat.one * ⟨Real.sin (3 * Real.pi / 4) * 0, Real.sin (3 * Real.pi / 4) * (-1),
        Real.sin (3 * Real.pi / 4) * 0, Real.cos (3 * Real.pi / 4)⟩) ⟨0, -1, 0⟩) =
      -(Real.pi / 2) :=
  ⟨c3_wheel_delta_wrap.1 (3 * Real.pi / 2) (by positivity) (by linarith [Real.pi_pos]),
   c3_wheel_delta_wrap.2 Quat.one ⟨0, -1, 0⟩
     (by norm_num [Quat.normSq, Quat.one]) (by norm_num [Vec3.normSq])⟩

theorem servoTier_stop (d sign force : ℝ) (h : d < 0.01) :
    servoTier d sign force = ⟨0, none⟩ := by
  unfold servoTier
  rw [if_pos h]

theorem servoTier_low (d sign force : ℝ) (h : ¬ d < 0.01) (h1 : 0.001 ≤ d)
    (h2 : d ≤ 0.04) : servoTier d sign force = ⟨sign * 1.2, some force⟩ := by
  unfold servoTier
  rw [if_neg h, if_pos ⟨h1, h2⟩]

theorem servoTier_high (d sign force : ℝ) (h : ¬ d < 0.01)
    (h2 : ¬ (0.001 ≤ d ∧ d ≤ 0.04)) : servoTier d sign force = ⟨sign * 6, some force⟩ := by
  unfold servoTier
  rw [if_neg h, if_neg h2]

/-- C1: for every servo drive step, both the arm and the claw joint motors are
set by three-tier proportional control on the normalized absolute delta
between the current rotation and the goal: below 0.01 the motor is stopped
with setMotor 0 (in particular a servo exactly at its goal, delta zero, gets a
stop command), in the band from 0.001 to 0.04 the joint is driven at low speed
1.2 toward the goal with the bounded max force (8000 for the arm, 2000 for the
claw), and otherwise at high speed 6 with the same bounded max force. -/
theorem c1_servo_three_tier (armRotationDefault clawRotationDefault
    bodyCurrQuat armCurrQuat clawCurrQuat : Quat) (goals : Fin 4 → ℝ) :
    (armDeltaNormOf armRotationDefault bodyCurrQuat armCurrQuat (goals 0) < 0.01 →
      (setServoPositions armRotationDefault clawRotationDefault bodyCurrQuat armCurrQuat
        clawCurrQuat goals).1 = ⟨0, none⟩) ∧
    (¬ armDeltaNormOf armRotationDefault bodyCurrQuat armCurrQuat (goals 0) < 0.01 →
      0.001 ≤ armDeltaNormOf armRotationDefault bodyCurrQuat armCurrQuat (goals 0) →
      armDeltaNormOf armRotationDefault bodyCurrQuat armCurrQuat (goals 0) ≤ 0.04 →
      (setServoPositions armRotationDefault clawRotationDefault bodyCurrQuat armCurrQuat
        clawCurrQuat goals).1 =
        ⟨armSignOf armRotationDefault bodyCurrQuat armCurrQuat (goals 0) * 1.2,
         some 8000⟩) ∧
    (¬ armDeltaNormOf armRotationDefault bodyCurrQuat armCurrQuat (goals 0) < 0.01 →
      ¬ (0.001 ≤ armDeltaNormOf armRotationDefault bodyCurrQuat armCurrQuat (goals 0) ∧
         armDeltaNormOf armRotationDefault bodyCurrQuat armCurrQuat (goals 0) ≤ 0.04) →
      (setServoPositions armRotationDefault clawRotationDefault bodyCurrQuat armCurrQuat
        clawCurrQuat goals).1 =
        ⟨armSignOf armRotationDefault bodyCurrQuat armCurrQuat (goals 0) * 6, some 8000⟩) ∧
    (armDeltaOf armRotationDefault bodyCurrQuat armCurrQuat (goals 0) = 0 →
      (setServoPositions armRotationDefault clawRotationDefault bodyCurrQuat armCurrQuat
        clawCurrQuat goals).1 = ⟨0, none⟩) ∧
    (clawDeltaNormOf clawRotationDefault armCurrQuat clawCurrQuat (goals 3) < 0.01 →
      (setServoPositions armRotationDefault clawRotationDefault bodyCurrQuat armCurrQuat
        clawCurrQuat goals).2 = ⟨0, none⟩) ∧
    (¬ clawDeltaNormOf clawRotationDefault armCurrQuat clawCurrQuat (goals 3) < 0.01 →
      0.001 ≤ clawDeltaNormOf clawRotationDefault armCurrQuat clawCurrQuat (goals 3) →
      clawDeltaNormOf clawRotationDefault armCurrQuat clawCurrQuat (goals 3) ≤ 0.04 →
      (setServoPositions armRotationDefault clawRotationDefault bodyCurrQuat armCurrQuat
        clawCurrQuat goals).2 =
        ⟨clawSignOf clawRotationDefault armCurrQuat clawCurrQuat (goals 3) * 1.2,
         some 2000⟩) ∧
    (¬ clawDeltaNormOf clawRotationDefault armCurrQuat clawCurrQuat (goals 3) < 0.01 →
      ¬ (0.001 ≤ clawDeltaNormOf clawRotationDefault armCurrQuat clawCurrQuat (goals 3) ∧
         clawDeltaNormOf clawRotationDefault armCurrQuat clawCurrQuat (goals 3) ≤ 0.04) →
      (setServoPositions armRotationDefault clawRotationDefault bodyCurrQuat armCurrQuat
        clawCurrQuat goals).2 =
        ⟨clawSignOf clawRotationDefault armCurrQuat clawCurrQuat (goals 3) * 6, some 2000⟩) ∧
    (clawDeltaOf clawRotationDefault armCurrQuat clawCurrQuat (goals 3) = 0 →
      (setServoPositions armRotationDefault clawRotationDefault bodyCurrQuat armCurrQuat
        clawCurrQuat goals).2 = ⟨0, none⟩) := by
  have hz : ∀ x : ℝ, x = 0 → |x / (SERVO_DEFUALT_RADIANS * 2)| = 0 := by
    intro x hx
    rw [hx, zero_div, abs_zero]
  refine ⟨fun h => servoTier_stop _ _ _ h,
          fun h h1 h2 => servoTier_low _ _ _ h h1 h2,
          fun h h2 => servoTier_high _ _ _ h h2,
          fun h => ?_,
          fun h => servoTier_stop _ _ _ h,
          fun h h1 h2 => servoTier_low _ _ _ h h1 h2,
          fun h h2 => servoTier_high _ _ _ h h2,
          fun h => ?_⟩
  · apply servoTier_stop
    rw [armDeltaNormOf, hz _ h]
    norm_num
  · apply servoTier_stop
    rw [clawDeltaNormOf, hz _ h]
    norm_num

theorem quat_one_inverse_mul : Quat.one.inverse * Quat.one = Quat.one := by
  ext <;> simp [Quat.mul_def, Quat.mul, Quat.inverse, Quat.one]

theorem wrapServoRotation_zero : wrapServoRotation 0 = 0 := by
  unfold wrapServoRotation
  rw [if_neg (not_le.mpr Real.pi_pos)]

theorem servoDefaultRadians_pos : 0 < SERVO_DEFUALT_RADIANS := by
  unfold SERVO_DEFUALT_RADIANS
  positivity

/-- Witness for C1: with all rig quaternions at the identity, arm goal 1024
ticks and claw goal 2048 ticks put both servos exactly at their goals, and
both joints receive the stop command setMotor 0. -/
theorem c1_servo_three_tier_witness :
    (setServoPositions Quat.one Quat.one Quat.one Quat.one Quat.one
      ![1024, 0, 0, 2048]).1 = ⟨0, none⟩ ∧
    (setServoPositions Quat.one Quat.one Quat.one Quat.one Quat.one
      ![1024, 0, 0, 2048]).2 = ⟨0, none⟩ := by
  have hone : Quat.normSq Quat.one = 1 := by norm_num [Quat.normSq, Quat.one]
  have hSDR := servoDefaultRadians_pos.ne.symm
  have hrot0 : ∀ axis : Vec3,
      wrapServoRotation (getDeltaRotationOnAxis Quat.one
        (Quat.one.inverse * Quat.one) axis) = 0 := by
    intro axis
    rw [quat_one_inverse_mul, getDeltaRotationOnAxis_self Quat.one axis hone,
      wrapServoRotation_zero]
  have harm : armDeltaOf Quat.one Quat.one Quat.one
      ((![1024, 0, 0, 2048] : Fin 4 → ℝ) 0) = 0 := by
    show armRotationOf Quat.one Quat.one Quat.one + ARM_DEFAULT_ROTATION -
      (1024 : ℝ) / SERVO_TICKS_PER_RADIAN = 0
    rw [show armRotationOf Quat.one Quat.one Quat.one =
        wrapServoRotation (getDeltaRotationOnAxis Quat.one
          (Quat.one.inverse * Quat.one) armRotationVector) from rfl, hrot0]
    unfold ARM_DEFAULT_ROTATION SERVO_TICKS_PER_RADIAN
    field_simp
    ring
  have hclaw : clawDeltaOf Quat.one Quat.one Quat.one
      ((![1024, 0, 0, 2048] : Fin 4 → ℝ) 3) = 0 := by
    show clawRotationOf Quat.one Quat.one Quat.one - CLAW_DEFAULT_ROTATION +
      (2048 : ℝ) / SERVO_TICKS_PER_RADIAN = 0
    rw [show clawRotationOf Quat.one Quat.one Quat.one =
        wrapServoRotation (getDeltaRotationOnAxis Quat.one
          (Quat.one.inverse * Quat.one) clawRotationVector) from rfl, hrot0]
    unfold CLAW_DEFAULT_ROTATION SERVO_TICKS_PER_RADIAN SERVO_DEFUALT_RADIANS
    have hpi := Real.pi_ne_zero
    field_simp
    ring
  exact ⟨(c1_servo_three_tier Quat.one Quat.one Quat.one Quat.one Quat.one
      ![1024, 0, 0, 2048]).2.2.2.1 harm,
    (c1_servo_three_tier Quat.one Quat.one Quat.one Quat.one Quat.one
      ![1024, 0, 0, 2048]).2.2.2.2.2.2.2 hclaw⟩

theorem rotationAngleRadians_one_one (t : RotationType) :
    rotationAngleRadians (RotationU.fromRawQuaternion Quat.one t)
      (RotationU.fromRawQuaternion Quat.one .euler) = 0 := by
  simp [rotationAngleRadians, RotationU.fromRawQuaternion, Quat.one, Real.arccos_one]

theorem distance_zero_cm_to_moved (d : ℝ) (hd : 0 ≤ d) :
    (UnitVector3.distance (UnitVector3.zero .centimeters)
      (UnitVector3.fromRaw ⟨d, 0, 0⟩ .centimeters)).value = d / 100 := by
  show Real.sqrt _ = d / 100
  rw [show ((UnitVector3.zero .centimeters).x.toMetersValue -
      (UnitVector3.fromRaw ⟨d, 0, 0⟩ .centimeters).x.toMetersValue) ^ 2 +
      ((UnitVector3.zero .centimeters).y.toMetersValue -
      (UnitVector3.fromRaw ⟨d, 0, 0⟩ .centimeters).y.toMetersValue) ^ 2 +
      ((UnitVector3.zero .centimeters).z.toMetersValue -
      (UnitVector3.fromRaw ⟨d, 0, 0⟩ .centimeters).z.toMetersValue) ^ 2 =
      (d / 100) ^ 2 from by
    simp [UnitVector3.zero, UnitVector3.fromRaw, Vec3.zero, UnitValue.toMetersValue]]
  exact Real.sqrt_sq (by positivity)

theorem reconciler_no_trigger_small_move (d : ℝ) (hd : 0 ≤ d)
    (hsmall : ¬ d / 100 > 0.005) :
    getSignificantOriginChange
      ⟨some (UnitVector3.zero .centimeters),
       some (RotationU.fromRawQuaternion Quat.one .euler), none⟩
      ⟨d, 0, 0⟩ Quat.one = ⟨none, none, none⟩ := by
  simp only [getSignificantOriginChange, Option.getD_some]
  rw [distance_zero_cm_to_moved d hd, if_neg hsmall,
    rotationAngleRadians_one_one, if_neg (by norm_num)]

/-- C2 counterexample: a node whose declarative origin sits at the zero
position in centimeters, with identity orientation, and whose live body sits
at raw position 0.006 (that is, moved by exactly 0.006 cm) produces an empty
significant-change record — position, orientation and scale are all absent —
and the node is not included in the batched state-update request, so a move of
0.006 cm does NOT trigger an update (the threshold is 0.005 meters, which is
0.5 cm, not 0.005 cm). -/
theorem c2_reconciler_threshold_counterexample :
    (getSignificantOriginChange
      ⟨some (UnitVector3.zero .centimeters),
       some (RotationU.fromRawQuaternion Quat.one .euler), none⟩
      ⟨0.006, 0, 0⟩ Quat.one).position = none ∧
    (getSignificantOriginChange
      ⟨some (UnitVector3.zero .centimeters),
       some (RotationU.fromRawQuaternion Quat.one .euler), none⟩
      ⟨0.006, 0, 0⟩ Quat.one).orientation = none ∧
    updateStoreNodeIds
      [("node", ⟨some (UnitVector3.zero .centimeters),
        some (RotationU.fromRawQuaternion Quat.one .euler), none⟩)]
      (fun _ => some (⟨0.006, 0, 0⟩, Quat.one)) = [] := by
  have h := reconciler_no_trigger_small_move 0.006 (by norm_num) (by norm_num)
  refine ⟨by rw [h], by rw [h], ?_⟩
  simp [updateStoreNodeIds, h]

theorem distance_zero_m_to_moved (d : ℝ) (hd : 0 ≤ d) :
    (UnitVector3.distance (UnitVector3.zero .meters)
      (UnitVector3.fromRaw ⟨d, 0, 0⟩ .centimeters)).value = d / 100 := by
  show Real.sqrt _ = d / 100
  rw [show ((UnitVector3.zero .meters).x.toMetersValue -
      (UnitVector3.fromRaw ⟨d, 0, 0⟩ .centimeters).x.toMetersValue) ^ 2 +
      ((UnitVector3.zero .meters).y.toMetersValue -
      (UnitVector3.fromRaw ⟨d, 0, 0⟩ .centimeters).y.toMetersValue) ^ 2 +
      ((UnitVector3.zero .meters).z.toMetersValue -
      (UnitVector3.fromRaw ⟨d, 0, 0⟩ .centimeters).z.toMetersValue) ^ 2 =
      (d / 100) ^ 2 from by
    simp [UnitVector3.zero, UnitVector3.fromRaw, Vec3.zero, UnitValue.toMetersValue]]
  exact Real.sqrt_sq (by positivity)

/-- C2 amended: a node moved by exactly 0.004 cm does not trigger a
state-update request; a node moved by 0.6 cm does trigger one, and the emitted
update reports the new position converted back into the node's original unit
type (meters here, so the 0.6 cm move is reported as 0.006 meters) while
carrying only the changed fields (orientation and scale stay absent); the
position field is emitted exactly when the distance exceeds 0.005 meters
(0.5 cm), and the orientation field is emitted exactly when the angular
difference exceeds 0.00872665 radians; the scale field is never emitted. -/
theorem c2_reconciler_threshold_amended :
    (updateStoreNodeIds
      [("node", ⟨some (UnitVector3.zero .centimeters),
        some (RotationU.fromRawQuaternion Quat.one .euler), none⟩)]
      (fun _ => some (⟨0.004, 0, 0⟩, Quat.one)) = []) ∧
    (updateStoreNodeIds
      [("node", ⟨some (UnitVector3.zero .meters),
        some (RotationU.fromRawQuaternion Quat.one .euler), none⟩)]
      (fun _ => some (⟨0.6, 0, 0⟩, Quat.one)) = ["node"]) ∧
    ((getSignificantOriginChange
      ⟨some (UnitVector3.zero .meters),
       some (RotationU.fromRawQuaternion Quat.one .euler), none⟩
      ⟨0.6, 0, 0⟩ Quat.one).position =
      some ⟨⟨.meters, 0.006⟩, ⟨.meters, 0⟩, ⟨.meters, 0⟩⟩) ∧
    ((getSignificantOriginChange
      ⟨some (UnitVector3.zero .meters),
       some (RotationU.fromRawQuaternion Quat.one .euler), none⟩
      ⟨0.6, 0, 0⟩ Quat.one).orientation = none) ∧
    (∀ (origin : OriginFrame) (bPosition : Vec3) (bRotation : Quat),
      ((getSignificantOriginChange origin bPosition bRotation).position.isSome ↔
        (UnitVector3.distance (origin.position.getD (UnitVector3.zero .meters))
          (UnitVector3.fromRaw bPosition .centimeters)).value > 0.005)) ∧
    (∀ (origin : OriginFrame) (bPosition : Vec3) (bRotation : Quat),
      ((getSignificantOriginChange origin bPosition bRotation).orientation.isSome ↔
        rotationAngleRadians
          (origin.orientation.getD (RotationU.fromRawQuaternion Quat.one .euler))
          (RotationU.fromRawQuaternion bRotation .euler) > 0.00872665)) ∧
    (∀ (origin : OriginFrame) (bPosition : Vec3) (bRotation : Quat),
      (getSignificantOriginChange origin bPosition bRotation).scale = none) := by
  have hsmall := reconciler_no_trigger_small_move 0.004 (by norm_num) (by norm_num)
  have hbig : getSignificantOriginChange
      ⟨some (UnitVector3.zero .meters),
       some (RotationU.fromRawQuaternion Quat.one .euler), none⟩
      ⟨0.6, 0, 0⟩ Quat.one =
      ⟨some ⟨⟨.meters, 0.006⟩, ⟨.meters, 0⟩, ⟨.meters, 0⟩⟩, none, none⟩ := by
    simp only [getSignificantOriginChange, Option.getD_some]
    rw [distance_zero_m_to_moved 0.6 (by norm_num), if_pos (by norm_num : (0.6:ℝ)/100 > 0.005),
      rotationAngleRadians_one_one, if_neg (by norm_num)]
    simp [UnitVector3.toTypeGranular, UnitVector3.fromRaw, UnitVector3.zero, Vec3.zero,
      UnitValue.toType, UnitValue.toMetersValue]
    norm_num
  refine ⟨by simp [updateStoreNodeIds, hsmall], by simp [updateStoreNodeIds, hbig],
    by rw [hbig], by rw [hbig], ?_, ?_, ?_⟩
  · intro origin bPosition bRotation
    simp only [getSignificantOriginChange]
    by_cases h : (UnitVector3.distance (origin.position.getD (UnitVector3.zero .meters))
        (UnitVector3.fromRaw bPosition .centimeters)).value > 0.005
    · simp [h]
    · simp [h]
  · intro origin bPosition bRotation
    simp only [getSignificantOriginChange]
    by_cases h : rotationAngleRadians
        (origin.orientation.getD (RotationU.fromRawQuaternion Quat.one .euler))
        (RotationU.fromRawQuaternion bRotation .euler) > 0.00872665
    · simp [h]
    · simp [h]
  · intro origin bPosition bRotation
    simp [getSignificantOriginChange]

end Sim
